import Mathlib

/-!
Verification development for the hc-homie5 controller-side engine.

The Rust sources are shallowly embedded: pure functions become Lean
functions, the stateful store operations become explicit state passing
(the operation returns its result together with the updated store), and
the hash maps become association lists with first-match lookup.  Types
from the external homie5 crate (identifiers, references, descriptions,
values) are modelled structurally from their use at the interface
boundary.  Wall-clock timestamps (chrono Utc::now) are threaded in as an
explicit parameter of type Timestamp.
-/

namespace HcHomie5

/-- Timestamps (chrono DateTime values) are opaque to all the verified
logic; only their propagation matters, so they are modelled as Nat. -/
abbrev Timestamp := Nat

/-- homie5 HomieID: a validated short identifier.  The character and
length validation is irrelevant to every claim, so the payload string is
used directly. -/
abbrev HomieID := String

/-- homie5 HomieDomain: Default is the standard homie domain, All is the
reserved wildcard value used in queries, Custom any other namespace. -/
inductive HomieDomain where
  | Default
  | All
  | Custom (name : String)
deriving DecidableEq, Repr

/-- homie5 HomieDeviceStatus lifecycle states. -/
inductive HomieDeviceStatus where
  | Init
  | Ready
  | Disconnected
  | Sleeping
  | Lost
deriving DecidableEq, Repr

/-- homie5 DeviceRef: (domain, device id), the primary key of a device. -/
structure DeviceRef where
  homieDomain : HomieDomain
  deviceId : HomieID
deriving DecidableEq, Repr

/-- DeviceRef::clone_with_id - same domain, replaced device id. -/
def DeviceRef.cloneWithId (r : DeviceRef) (id : HomieID) : DeviceRef :=
  { homieDomain := r.homieDomain, deviceId := id }

/-- homie5 PropertyPointer: (node id, property id) inside one device. -/
structure PropertyPointer where
  nodeId : HomieID
  propId : HomieID
deriving DecidableEq, Repr

/-- homie5 PropertyRef: (domain, device id, node id, property id). -/
structure PropertyRef where
  device : DeviceRef
  nodeId : HomieID
  propId : HomieID
deriving DecidableEq, Repr

/-- PropertyRef::new(domain, device_id, node_id, prop_id). -/
def PropertyRef.mk4 (domain : HomieDomain) (deviceId nodeId propId : HomieID) : PropertyRef :=
  { device := { homieDomain := domain, deviceId := deviceId }, nodeId := nodeId, propId := propId }

def PropertyRef.deviceRef (p : PropertyRef) : DeviceRef := p.device

def PropertyRef.deviceId (p : PropertyRef) : HomieID := p.device.deviceId

def PropertyRef.propPointer (p : PropertyRef) : PropertyPointer :=
  { nodeId := p.nodeId, propId := p.propId }

/-- homie5 HomieValue.  The float payload is abstracted to an integer
representative (no claim depends on floating-point arithmetic or IEEE
equality), datetime and duration payloads to Nat ticks, colors and JSON
payloads to their textual form. -/
inductive HomieValue where
  | String (s : String)
  | Integer (i : Int)
  | Float (bits : Int)
  | Bool (b : Bool)
  | Enum (s : String)
  | Color (s : String)
  | DateTime (t : Nat)
  | Duration (t : Nat)
  | JSON (s : String)
deriving DecidableEq, Repr

/-- homie5 HomieDataType. -/
inductive HomieDataType where
  | Integer
  | Float
  | Boolean
  | String
  | Enum
  | Color
  | Datetime
  | Duration
  | JSON
deriving DecidableEq, Repr

-- Association-list maps standing in for std HashMap.  Lookup takes the
-- first matching key; insert replaces the first matching binding in
-- place (get_mut semantics) or appends a fresh binding.

def alistGet {K V : Type} [DecidableEq K] (l : List (K × V)) (k : K) : Option V :=
  match l with
  | [] => none
  | (k', v) :: rest => if k' = k then some v else alistGet rest k

def alistInsert {K V : Type} [DecidableEq K] (l : List (K × V)) (k : K) (v : V) :
    List (K × V) :=
  match l with
  | [] => [(k, v)]
  | (k', v') :: rest =>
    if k' = k then (k', v) :: rest else (k', v') :: alistInsert rest k v

def alistRemove {K V : Type} [DecidableEq K] (l : List (K × V)) (k : K) : List (K × V) :=
  match l with
  | [] => []
  | (k', v') :: rest => if k' = k then alistRemove rest k else (k', v') :: alistRemove rest k

-- ---------------------------------------------------------------------
-- Device descriptions (homie5 device_description module, modelled
-- structurally from the fields the engine reads)
-- ---------------------------------------------------------------------

/-- homie5 HomiePropertyFormat.  Only the distinction Empty / non-Empty
and a textual rendering are observable through this crate (the format
condition of PropertyQuery); ranges and enums are kept structurally. -/
inductive HomiePropertyFormat where
  | Empty
  | IntegerRange (min max step : Option Int)
  | Text (s : String)
deriving DecidableEq, Repr

/-- Textual rendering of a format, standing in for the Display impl of
the homie5 crate (only compared against format query conditions, which
no claim exercises). -/
def HomiePropertyFormat.render : HomiePropertyFormat → String
  | .Empty => ""
  | .IntegerRange _ _ _ => "integer-range"
  | .Text s => s

/-- homie5 HomiePropertyDescription. -/
structure HomiePropertyDescription where
  name : Option String
  datatype : HomieDataType
  format : HomiePropertyFormat
  settable : Bool
  retained : Bool
  unit : Option String
deriving DecidableEq, Repr

/-- homie5 HomieNodeDescription; properties keyed by property id. -/
structure HomieNodeDescription where
  name : Option String
  type : Option String
  properties : List (HomieID × HomiePropertyDescription)
deriving DecidableEq, Repr

/-- homie5 HomieDeviceDescription; nodes keyed by node id. -/
structure HomieDeviceDescription where
  version : Int
  name : Option String
  homie : String
  parent : Option HomieID
  root : Option HomieID
  children : List HomieID
  extensions : List String
  nodes : List (HomieID × HomieNodeDescription)
deriving DecidableEq, Repr

/-- HomieDeviceDescription::with_property - resolve the property
description addressed by a PropertyRef inside the description tree and
apply f to it, None when the node or the property is not described. -/
def HomieDeviceDescription.withProperty {α : Type} (desc : HomieDeviceDescription)
    (prop : PropertyRef) (f : HomiePropertyDescription → α) : Option α :=
  match alistGet desc.nodes prop.nodeId with
  | none => none
  | some nodeDesc => (alistGet nodeDesc.properties prop.propId).map f

-- ---------------------------------------------------------------------
-- Alert store (src/alert_store.rs)
-- ---------------------------------------------------------------------

/-- AlertUpdate result enum of AlertStore::store_alert. -/
inductive AlertUpdate where
  | New (id : HomieID) (alert : String)
  | Changed (id : HomieID) (oldAlert newAlert : String)
  | Cleared (id : HomieID)
  | Equal
  | NoChange
deriving DecidableEq, Repr

/-- AlertStore: per-device map AlertID to message text. -/
structure AlertStore where
  entries : List (HomieID × String)
deriving DecidableEq, Repr

def AlertStore.new : AlertStore := { entries := [] }

/-- AlertStore::store_alert(id, alert): empty text removes the id
(Cleared when present, NoChange when absent); otherwise insert (New),
keep (Equal) or replace (Changed) the entry. -/
def AlertStore.storeAlert (s : AlertStore) (id : HomieID) (alert : String) :
    AlertUpdate × AlertStore :=
  if alert.isEmpty then
    match alistGet s.entries id with
    | some _ => (.Cleared id, { entries := alistRemove s.entries id })
    | none => (.NoChange, s)
  else
    match alistGet s.entries id with
    | some entry =>
      if entry ≠ alert then
        (.Changed id entry alert, { entries := alistInsert s.entries id alert })
      else
        (.Equal, s)
    | none => (.New id alert, { entries := alistInsert s.entries id alert })

-- ---------------------------------------------------------------------
-- Property value store (src/property_value_store.rs)
-- ---------------------------------------------------------------------

/-- PropertyValueEntry: last-known value and target of one property with
receive/change timestamps. -/
structure PropertyValueEntry where
  value : Option HomieValue
  target : Option HomieValue
  valueLastReceived : Option Timestamp
  valueLastChanged : Option Timestamp
  targetLastReceived : Option Timestamp
  targetLastChanged : Option Timestamp
deriving DecidableEq, Repr

def PropertyValueEntry.default : PropertyValueEntry :=
  { value := none, target := none, valueLastReceived := none, valueLastChanged := none,
    targetLastReceived := none, targetLastChanged := none }

/-- ValueUpdate result enum of store_value / store_target. -/
inductive ValueUpdate (T : Type) where
  | Equal (lastReceived lastChanged : Option Timestamp)
  | Changed (old : Option T) (new : T) (lastReceived lastChanged : Option Timestamp)
deriving DecidableEq, Repr

/-- PropertyValueStore: map PropertyPointer to PropertyValueEntry. -/
structure PropertyValueStore where
  entries : List (PropertyPointer × PropertyValueEntry)
deriving DecidableEq, Repr

def PropertyValueStore.new : PropertyValueStore := { entries := [] }

/-- PropertyValueStore::store_value(prop, value) at time now: on an
existing entry always refresh value_last_received, report Equal when the
stored value deep-equals the new one, otherwise swap the value and
report Changed; on a missing entry create it and report Changed with old
None. -/
def PropertyValueStore.storeValue (s : PropertyValueStore) (now : Timestamp)
    (prop : PropertyPointer) (value : HomieValue) :
    ValueUpdate HomieValue × PropertyValueStore :=
  match alistGet s.entries prop with
  | some entry =>
    if entry.value ≠ some value then
      let newEntry :=
        { entry with
          value := some value, valueLastReceived := some now, valueLastChanged := some now }
      (.Changed entry.value value (some now) (some now),
       { entries := alistInsert s.entries prop newEntry })
    else
      (.Equal (some now) entry.valueLastChanged,
       { entries := alistInsert s.entries prop ({ entry with valueLastReceived := some now }) })
  | none =>
    let freshEntry :=
      { PropertyValueEntry.default with
        value := some value, valueLastReceived := some now, valueLastChanged := some now }
    (.Changed none value (some now) (some now),
     { entries := alistInsert s.entries prop freshEntry })

/-- PropertyValueStore::store_target - the same contract against the
target field, independent of value. -/
def PropertyValueStore.storeTarget (s : PropertyValueStore) (now : Timestamp)
    (prop : PropertyPointer) (target : HomieValue) :
    ValueUpdate HomieValue × PropertyValueStore :=
  match alistGet s.entries prop with
  | some entry =>
    if entry.target ≠ some target then
      let newEntry :=
        { entry with
          target := some target, targetLastReceived := some now, targetLastChanged := some now }
      (.Changed entry.target target (some now) (some now),
       { entries := alistInsert s.entries prop newEntry })
    else
      (.Equal (some now) entry.targetLastChanged,
       { entries := alistInsert s.entries prop ({ entry with targetLastReceived := some now }) })
  | none =>
    let freshEntry :=
      { PropertyValueEntry.default with
        target := some target, targetLastReceived := some now, targetLastChanged := some now }
    (.Changed none target (some now) (some now),
     { entries := alistInsert s.entries prop freshEntry })

/-- PropertyValueStore::get_value_entry. -/
def PropertyValueStore.getValueEntry (s : PropertyValueStore) (prop : PropertyPointer) :
    Option PropertyValueEntry :=
  alistGet s.entries prop

-- ---------------------------------------------------------------------
-- Device store (src/device_store.rs)
-- ---------------------------------------------------------------------

/-- DeviceUpdate result enum of DeviceStore::add. -/
inductive DeviceUpdate where
  | Added (device : DeviceRef)
  | StateUpdate (device : DeviceRef) (fromStatus toStatus : HomieDeviceStatus)
  | NoChange
deriving DecidableEq, Repr

/-- DescriptionUpdate result enum of DeviceStore::store_description. -/
inductive DescriptionUpdate where
  | Update (device : DeviceRef) (fromDesc : Option HomieDeviceDescription)
      (toDesc : HomieDeviceDescription)
  | NoChange
  | NotFound
deriving DecidableEq, Repr

/-- Device: identity, lifecycle status, optional versioned description
and the owned per-device value and alert stores. -/
structure Device where
  ident : DeviceRef
  state : HomieDeviceStatus
  description : Option HomieDeviceDescription
  propValues : PropertyValueStore
  alerts : AlertStore
deriving DecidableEq, Repr

def Device.deviceId (d : Device) : HomieID := d.ident.deviceId

/-- DeviceRemove result enum of DeviceStore::remove_device. -/
inductive DeviceRemove where
  | Removed (device : Device)
  | NotFound
deriving DecidableEq, Repr

abbrev DeviceMap := List (HomieID × Device)

/-- DeviceStore: map domain to device-id-keyed DeviceMap. -/
structure DeviceStore where
  domains : List (HomieDomain × DeviceMap)
deriving DecidableEq, Repr

def DeviceStore.new : DeviceStore := { domains := [] }

/-- DeviceStore::get_device. -/
def DeviceStore.getDevice (s : DeviceStore) (devref : DeviceRef) : Option Device :=
  (alistGet s.domains devref.homieDomain).bind fun dm => alistGet dm devref.deviceId

/-- In-place replacement of the device stored under devref, modelling
mutation through the get_mut reference.  Leaves the store unchanged when
the device is absent (the callers below only use it after a successful
lookup). -/
def DeviceStore.setDevice (s : DeviceStore) (devref : DeviceRef) (d : Device) : DeviceStore :=
  match alistGet s.domains devref.homieDomain with
  | none => s
  | some dm =>
    { domains := alistInsert s.domains devref.homieDomain (alistInsert dm devref.deviceId d) }

/-- DeviceStore::add(device_ref, status): update the status of a known
device (StateUpdate / NoChange) or create a fresh device with no
description and empty value and alert stores (Added), creating the
domain map on demand. -/
def DeviceStore.add (s : DeviceStore) (devref : DeviceRef) (status : HomieDeviceStatus) :
    DeviceUpdate × DeviceStore :=
  match s.getDevice devref with
  | some device =>
    if device.state ≠ status then
      (.StateUpdate devref device.state status,
       s.setDevice devref { device with state := status })
    else
      (.NoChange, s)
  | none =>
    let device : Device :=
      { ident := devref, state := status, description := none,
        propValues := PropertyValueStore.new, alerts := AlertStore.new }
    match alistGet s.domains devref.homieDomain with
    | some dm =>
      (.Added devref,
       { domains := alistInsert s.domains devref.homieDomain
          (alistInsert dm devref.deviceId device) })
    | none =>
      (.Added devref,
       { domains := alistInsert s.domains devref.homieDomain [(devref.deviceId, device)] })

/-- DeviceStore::get_value_entry: value entry of a property resolved
through its device. -/
def DeviceStore.getValueEntry (s : DeviceStore) (prop : PropertyRef) :
    Option PropertyValueEntry :=
  (s.getDevice prop.deviceRef).bind fun device =>
    device.propValues.getValueEntry prop.propPointer

/-- DeviceStore::remove_device. -/
def DeviceStore.removeDevice (s : DeviceStore) (devref : DeviceRef) :
    DeviceRemove × DeviceStore :=
  match alistGet s.domains devref.homieDomain with
  | none => (.NotFound, s)
  | some dm =>
    match alistGet dm devref.deviceId with
    | none => (.NotFound, s)
    | some device =>
      (.Removed device,
       { domains := alistInsert s.domains devref.homieDomain (alistRemove dm devref.deviceId) })

/-- DeviceStore::store_description(device_ref, description): NotFound on
an unknown device; install and report Update with from None when no
description was held; replace wholesale and report Update with from
Some(old) when the held version differs; NoChange on an equal version. -/
def DeviceStore.storeDescription (s : DeviceStore) (devref : DeviceRef)
    (description : HomieDeviceDescription) : DescriptionUpdate × DeviceStore :=
  match s.getDevice devref with
  | none => (.NotFound, s)
  | some device =>
    match device.description with
    | some currentDesc =>
      if currentDesc.version ≠ description.version then
        (.Update devref (some currentDesc) description,
         s.setDevice devref { device with description := some description })
      else
        (.NoChange, s)
    | none =>
      (.Update devref none description,
       s.setDevice devref { device with description := some description })

/-- DeviceStore::is_orphaned, embedded with explicit fuel because the
source recursion has no cycle guard and therefore no termination
measure: none models a computation that still has not returned after
the given number of recursive unfoldings.  A device is reported orphaned
when it declares a parent that is absent from the store or whose
description does not list the device among its children; when the parent
is present, lists the device and itself declares a parent, the check
recurses to the parent; in every other case (no description, no declared
parent, or a parent present without a description) the result is false,
matching the fall-through of the source. -/
def DeviceStore.isOrphanedFuel (s : DeviceStore) : Nat → Device → Option Bool
  | 0, _ => none
  | n + 1, device =>
    match device.description with
    | none => some false
    | some desc =>
      match desc.parent with
      | none => some false
      | some parent =>
        match s.getDevice (device.ident.cloneWithId parent) with
        | none => some true
        | some p =>
          match p.description with
          | none => some false
          | some pd =>
            if device.deviceId ∈ pd.children then
              if pd.parent.isSome then
                s.isOrphanedFuel n p
              else
                some false
            else
              some true

-- ---------------------------------------------------------------------
-- Value-condition DSL (src/value_condition/)
-- ---------------------------------------------------------------------

/-- ConditionOperator of the condition DSL. -/
inductive ConditionOperator where
  | Equal
  | Greater
  | Less
  | GreaterOrEqual
  | LessOrEqual
  | NotEqual
  | IncludesAny
  | IncludesNone
  | MatchAlways
  | IsEmpty
  | Exists
deriving DecidableEq, Repr

/-- ValueSet: a single operand or a multi-operand set. -/
inductive ValueSet (T : Type) where
  | Single (v : T)
  | Multiple (vs : List T)
deriving DecidableEq, Repr

/-- ValueSet::value - Some only for a Single operand. -/
def ValueSet.value {T : Type} : ValueSet T → Option T
  | .Single v => some v
  | .Multiple _ => none

/-- The regex engine is an external collaborator (the regex crate);
its behavior enters the development only as an oracle mapping a pattern
and a subject string to a match verdict. -/
abbrev RegexOracle := String → String → Bool

/-- Bundle of the per-type ValueMatcher trait methods: the string
projection used for regex matching, whether regex matching applies at
all (bool, i64 and HomieDomain override matches_regex to false), the
operator dispatch and literal equality. -/
structure ValueMatcherOps (T : Type) where
  asMatchStr : T → String
  regexApplies : Bool
  matchesOp : ConditionOperator → Option (ValueSet T) → T → Bool
  matchesLiteral : T → T → Bool

def ValueMatcherOps.matchesRegex {T : Type} (M : ValueMatcherOps T) (rm : RegexOracle)
    (v : T) (pat : String) : Bool :=
  if M.regexApplies then rm pat (M.asMatchStr v) else false

/-- Default trait body of ValueMatcher::matches for scalar types,
parameterized by the strict and non-strict order tests of the type. -/
def defaultMatches {T : Type} [DecidableEq T] (ltb leb : T → T → Bool)
    (op : ConditionOperator) (operand : Option (ValueSet T)) (self : T) : Bool :=
  match op with
  | .Equal =>
    match operand with
    | some (.Single v) => self == v
    | some (.Multiple values) => values.contains self
    | _ => false
  | .Greater =>
    match operand with
    | some (.Single v) => ltb v self
    | _ => false
  | .Less =>
    match operand with
    | some (.Single v) => ltb self v
    | _ => false
  | .GreaterOrEqual =>
    match operand with
    | some (.Single v) => leb v self
    | _ => false
  | .LessOrEqual =>
    match operand with
    | some (.Single v) => leb self v
    | _ => false
  | .NotEqual =>
    match operand with
    | some (.Single v) => self != v
    | some (.Multiple values) => !(values.contains self)
    | _ => false
  | .IncludesAny =>
    match operand with
    | some (.Single v) => self == v
    | some (.Multiple values) => values.contains self
    | _ => false
  | .IncludesNone =>
    match operand with
    | some (.Single v) => self != v
    | some (.Multiple values) => !(values.contains self)
    | _ => false
  | .MatchAlways => true
  | .IsEmpty => false
  | .Exists => true

/-- ValueMatcher::matches of the generic vector implementation
(impl_value_matcher_for_vec): Equal is same-length containment,
IncludesAny / IncludesNone test overlap / disjointness, ordered
operators are false. -/
def vecMatches {T : Type} [DecidableEq T]
    (op : ConditionOperator) (operand : Option (ValueSet (List T))) (self : List T) : Bool :=
  match op with
  | .Equal =>
    match operand with
    | some (.Single value) =>
      value.length == self.length && value.all (fun v => self.contains v)
    | some (.Multiple values) =>
      values.any (fun va => va.length == self.length && va.all (fun v => self.contains v))
    | _ => false
  | .NotEqual =>
    match operand with
    | some (.Single value) =>
      value.length != self.length || value.any (fun v => !(self.contains v))
    | some (.Multiple values) =>
      values.all (fun va => va.length != self.length || va.any (fun v => !(self.contains v)))
    | _ => true
  | .IncludesAny =>
    match operand with
    | some (.Single value) => value.any (fun v => self.contains v)
    | some (.Multiple values) => values.any (fun va => va.any (fun v => self.contains v))
    | _ => false
  | .IncludesNone =>
    match operand with
    | some (.Single value) => value.all (fun v => !(self.contains v))
    | some (.Multiple values) => values.all (fun va => va.all (fun v => !(self.contains v)))
    | _ => false
  | .MatchAlways => true
  | _ => false

def stringMatcher : ValueMatcherOps String :=
  { asMatchStr := fun s => s, regexApplies := true,
    matchesOp := defaultMatches (fun a b => decide (a < b)) (fun a b => decide (a ≤ b)),
    matchesLiteral := fun a b => a == b }

/-- HomieID matches exactly like String (its as_match_str is as_str). -/
def homieIdMatcher : ValueMatcherOps HomieID := stringMatcher

def dataTypeMatchStr : HomieDataType → String
  | .Integer => "integer"
  | .Float => "float"
  | .Boolean => "boolean"
  | .String => "string"
  | .Enum => "enum"
  | .Color => "color"
  | .Datetime => "datetime"
  | .Duration => "duration"
  | .JSON => "json"

def dataTypeIdx : HomieDataType → Nat
  | .Integer => 0
  | .Float => 1
  | .Boolean => 2
  | .String => 3
  | .Enum => 4
  | .Color => 5
  | .Datetime => 6
  | .Duration => 7
  | .JSON => 8

def dataTypeMatcher : ValueMatcherOps HomieDataType :=
  { asMatchStr := dataTypeMatchStr, regexApplies := true,
    matchesOp := defaultMatches (fun a b => dataTypeIdx a < dataTypeIdx b) (fun a b => dataTypeIdx a ≤ dataTypeIdx b),
    matchesLiteral := fun a b => a == b }

def boolMatcher : ValueMatcherOps Bool :=
  { asMatchStr := fun _ => "", regexApplies := false,
    matchesOp := defaultMatches (fun a b => !a && b) (fun a b => !a || b),
    matchesLiteral := fun a b => a == b }

def intMatcher : ValueMatcherOps Int :=
  { asMatchStr := fun _ => "", regexApplies := false,
    matchesOp := defaultMatches (fun a b => decide (a < b)) (fun a b => decide (a ≤ b)),
    matchesLiteral := fun a b => a == b }

def HomieDomain.idx : HomieDomain → Nat
  | .Default => 0
  | .Custom _ => 1
  | .All => 2

def HomieDomain.ltb : HomieDomain → HomieDomain → Bool
  | .Custom a, .Custom b => decide (a < b)
  | a, b => a.idx < b.idx

def domainMatcher : ValueMatcherOps HomieDomain :=
  { asMatchStr := fun _ => "", regexApplies := false,
    matchesOp := defaultMatches HomieDomain.ltb (fun a b => HomieDomain.ltb a b || a == b),
    matchesLiteral := fun a b => a == b }

/-- Generic vector matcher used for Vec-valued condition fields
(children, extensions). -/
def vecMatcher {T : Type} [DecidableEq T] : ValueMatcherOps (List T) :=
  { asMatchStr := fun _ => "", regexApplies := false,
    matchesOp := vecMatches, matchesLiteral := fun a b => a == b }

/-- ValueOperatorCondition: operator plus optional operand set. -/
structure ValueOperatorCondition (T : Type) where
  operator : ConditionOperator
  value : Option (ValueSet T)
deriving DecidableEq, Repr

/-- ValueCondition: literal, operator condition or regex pattern. -/
inductive ValueCondition (T : Type) where
  | Value (v : T)
  | Operator (c : ValueOperatorCondition T)
  | Pattern (pattern : String)
deriving DecidableEq, Repr

/-- ValueOperatorCondition::evaluate. -/
def ValueOperatorCondition.evaluate {T : Type} (M : ValueMatcherOps T)
    (oc : ValueOperatorCondition T) (checkValue : T) : Bool :=
  M.matchesOp oc.operator oc.value checkValue

/-- ValueOperatorCondition::evaluate_option: IsEmpty / Exists /
MatchAlways inspect only presence, every other operator is false on an
absent value. -/
def ValueOperatorCondition.evaluateOption {T : Type} (M : ValueMatcherOps T)
    (oc : ValueOperatorCondition T) (checkValue : Option T) : Bool :=
  match oc.operator with
  | .IsEmpty => checkValue.isNone
  | .Exists => checkValue.isSome
  | .MatchAlways => true
  | _ =>
    match checkValue with
    | some v => oc.evaluate M v
    | none => false

/-- ValueCondition::evaluate. -/
def ValueCondition.evaluate {T : Type} (M : ValueMatcherOps T) (rm : RegexOracle)
    (c : ValueCondition T) (v : T) : Bool :=
  match c with
  | .Value literal => M.matchesLiteral v literal
  | .Operator oc => oc.evaluate M v
  | .Pattern pat => M.matchesRegex rm v pat

/-- ValueCondition::evaluate_option. -/
def ValueCondition.evaluateOption {T : Type} (M : ValueMatcherOps T) (rm : RegexOracle)
    (c : ValueCondition T) (v : Option T) : Bool :=
  match c with
  | .Value literal => (v.map (fun x => M.matchesLiteral x literal)).getD false
  | .Operator oc => oc.evaluateOption M v
  | .Pattern pat => (v.map (fun x => M.matchesRegex rm x pat)).getD false

/-- ValueCondition::value. -/
def ValueCondition.valueOf {T : Type} : ValueCondition T → Option T
  | .Value literal => some literal
  | .Operator oc => oc.value.bind ValueSet.value
  | .Pattern _ => none

/-- ValueConditionVec, the Vec-valued condition type used by the
children and extensions fields of DeviceQuery.  Its definition lives in
a part of the crate not present under src (only its uses and the vector
matcher macro are); from those uses it is a ValueCondition over vectors
evaluated with the vector matcher. -/
abbrev ValueConditionVec (T : Type) := ValueCondition (List T)

-- ---------------------------------------------------------------------
-- Queries (src/query.rs)
-- ---------------------------------------------------------------------

/-- map_or(true, f) over an optional condition: an absent condition
always holds. -/
def condHolds {X : Type} (o : Option X) (f : X → Bool) : Bool :=
  match o with
  | none => true
  | some c => f c

/-- PropertyQuery: optional conditions over one property description. -/
structure PropertyQuery where
  id : Option (ValueCondition HomieID)
  name : Option (ValueCondition String)
  datatype : Option (ValueCondition HomieDataType)
  format : Option (ValueCondition String)
  settable : Option (ValueCondition Bool)
  retained : Option (ValueCondition Bool)
  unit : Option (ValueCondition String)

def PropertyQuery.default : PropertyQuery :=
  { id := none, name := none, datatype := none, format := none, settable := none,
    retained := none, unit := none }

/-- PropertyQuery::match_query: every present condition must hold; the
format condition treats the Empty format as no value (false). -/
def PropertyQuery.matchQuery (q : PropertyQuery) (rm : RegexOracle) (id : HomieID)
    (propertyDesc : HomiePropertyDescription) : Bool :=
  condHolds q.id (fun cond => cond.evaluate homieIdMatcher rm id)
    && condHolds q.name (fun cond => cond.evaluateOption stringMatcher rm propertyDesc.name)
    && condHolds q.datatype (fun cond => cond.evaluate dataTypeMatcher rm propertyDesc.datatype)
    && condHolds q.format (fun cond =>
        match propertyDesc.format with
        | .Empty => false
        | f => cond.evaluate stringMatcher rm f.render)
    && condHolds q.settable (fun cond => cond.evaluate boolMatcher rm propertyDesc.settable)
    && condHolds q.retained (fun cond => cond.evaluate boolMatcher rm propertyDesc.retained)
    && condHolds q.unit (fun cond => cond.evaluateOption stringMatcher rm propertyDesc.unit)

/-- NodeQuery: optional conditions over one node description; the rtype
field embeds the raw-identifier field r#type of the source. -/
structure NodeQuery where
  id : Option (ValueCondition HomieID)
  name : Option (ValueCondition String)
  rtype : Option (ValueCondition String)

def NodeQuery.default : NodeQuery := { id := none, name := none, rtype := none }

/-- NodeQuery::match_query. -/
def NodeQuery.matchQuery (q : NodeQuery) (rm : RegexOracle) (id : HomieID)
    (nodeDesc : HomieNodeDescription) : Bool :=
  condHolds q.id (fun cond => cond.evaluate homieIdMatcher rm id)
    && condHolds q.name (fun cond => cond.evaluateOption stringMatcher rm nodeDesc.name)
    && condHolds q.rtype (fun cond => cond.evaluateOption stringMatcher rm nodeDesc.type)

/-- DeviceQuery: optional conditions over device-level description
metadata. -/
structure DeviceQuery where
  id : Option (ValueCondition HomieID)
  name : Option (ValueCondition String)
  version : Option (ValueCondition Int)
  homie : Option (ValueCondition String)
  children : Option (ValueConditionVec HomieID)
  root : Option (ValueCondition HomieID)
  parent : Option (ValueCondition HomieID)
  extensions : Option (ValueConditionVec String)

def DeviceQuery.default : DeviceQuery :=
  { id := none, name := none, version := none, homie := none, children := none,
    root := none, parent := none, extensions := none }

/-- DeviceQuery::match_query, in the evaluation order of the source
(id, name, root, homie, parent, version, children, extensions). -/
def DeviceQuery.matchQuery (q : DeviceQuery) (rm : RegexOracle) (id : HomieID)
    (deviceDesc : HomieDeviceDescription) : Bool :=
  condHolds q.id (fun cond => cond.evaluate homieIdMatcher rm id)
    && condHolds q.name (fun cond => cond.evaluateOption stringMatcher rm deviceDesc.name)
    && condHolds q.root (fun cond => cond.evaluateOption homieIdMatcher rm deviceDesc.root)
    && condHolds q.homie (fun cond => cond.evaluate stringMatcher rm deviceDesc.homie)
    && condHolds q.parent (fun cond => cond.evaluateOption homieIdMatcher rm deviceDesc.parent)
    && condHolds q.version (fun cond => cond.evaluate intMatcher rm deviceDesc.version)
    && condHolds q.children (fun cond => cond.evaluate vecMatcher rm deviceDesc.children)
    && condHolds q.extensions (fun cond => cond.evaluate vecMatcher rm deviceDesc.extensions)

/-- QueryDefinition: optional sub-queries at domain, device, node and
property granularity. -/
structure QueryDefinition where
  domain : Option (ValueCondition HomieDomain)
  device : Option DeviceQuery
  node : Option NodeQuery
  property : Option PropertyQuery

def QueryDefinition.default : QueryDefinition :=
  { domain := none, device := none, node := none, property := none }

/-- Domain-level test of QueryDefinition::match_query: a condition whose
single operand is the reserved wildcard HomieDomain::All matches every
domain; otherwise the condition is evaluated on the domain. -/
def QueryDefinition.domainOk (q : QueryDefinition) (rm : RegexOracle)
    (domain : HomieDomain) : Bool :=
  condHolds q.domain (fun cond =>
    match cond.valueOf with
    | some HomieDomain.All => true
    | _ => cond.evaluate domainMatcher rm domain)

/-- QueryDefinition::match_query: when the domain and device levels
hold, descend through every node and property of the description,
keeping each property whose node and property levels hold, and build a
PropertyRef from the passed domain and device id. -/
def QueryDefinition.matchQuery (q : QueryDefinition) (rm : RegexOracle)
    (domain : HomieDomain) (id : HomieID) (deviceDesc : HomieDeviceDescription) :
    List PropertyRef :=
  if q.domainOk rm domain
      && condHolds q.device (fun dq => dq.matchQuery rm id deviceDesc) then
    deviceDesc.nodes.flatMap (fun node =>
      if condHolds q.node (fun nq => nq.matchQuery rm node.1 node.2) then
        (node.2.properties.filter
            (fun pp => condHolds q.property (fun pq => pq.matchQuery rm pp.1 pp.2))).map
          (fun pp => PropertyRef.mk4 domain id node.1 pp.1)
      else [])
  else []

/-- MaterializedQuery: a QueryDefinition plus the set of currently
matching property references (HashSet modelled as Finset). -/
structure MaterializedQuery where
  query : QueryDefinition
  matRefs : Finset PropertyRef

/-- MaterializedQuery::new. -/
def MaterializedQuery.new (q : QueryDefinition) : MaterializedQuery :=
  { query := q, matRefs := ∅ }

/-- MaterializedQuery::add_materialized: retain only the references
whose device id differs from the given id, then insert the fresh match
set of the wrapped query. -/
def MaterializedQuery.addMaterialized (m : MaterializedQuery) (rm : RegexOracle)
    (domain : HomieDomain) (id : HomieID) (deviceDesc : HomieDeviceDescription) :
    MaterializedQuery :=
  let purged := m.matRefs.filter (fun propRef => propRef.deviceId ≠ id)
  { m with matRefs := purged ∪ (m.query.matchQuery rm domain id deviceDesc).toFinset }

/-- MaterializedQuery::remove_materialized: remove exactly the
references the wrapped query currently produces for the device. -/
def MaterializedQuery.removeMaterialized (m : MaterializedQuery) (rm : RegexOracle)
    (domain : HomieDomain) (id : HomieID) (deviceDesc : HomieDeviceDescription) :
    MaterializedQuery :=
  { m with matRefs := m.matRefs \ (m.query.matchQuery rm domain id deviceDesc).toFinset }

/-- MaterializedQuery::match_query: set membership. -/
def MaterializedQuery.matchQuery (m : MaterializedQuery) (propRef : PropertyRef) : Bool :=
  decide (propRef ∈ m.matRefs)

-- ---------------------------------------------------------------------
-- Discovery engine, property-value path (src/discovery.rs)
-- ---------------------------------------------------------------------

/-- DiscoveryAction variants producible by the embedded store-facing
paths of the engine.  DeviceRemoved and Unhandled carry engine-external
payloads (a full Device snapshot and a raw protocol message) and are
never constructed by the functions embedded here, so they are omitted. -/
inductive DiscoveryAction where
  | NewDevice (device : DeviceRef) (status : HomieDeviceStatus)
  | StateChanged (device : DeviceRef) (fromStatus toStatus : HomieDeviceStatus)
  | DeviceDescriptionChanged (device : DeviceRef)
  | DevicePropertyValueChanged (prop : PropertyRef) (fromValue : Option HomieValue)
      (toValue : HomieValue)
  | DevicePropertyTargetChanged (prop : PropertyRef) (fromValue : Option HomieValue)
      (toValue : HomieValue)
  | DevicePropertyValueTriggered (prop : PropertyRef) (value : HomieValue)
  | DeviceAlert (device : DeviceRef) (alertId : HomieID) (alert : String)
  | DeviceAlertChanged (device : DeviceRef) (alertId : HomieID) (fromAlert toAlert : String)
  | DeviceAlertCleared (device : DeviceRef) (alertId : HomieID)
deriving DecidableEq, Repr

/-- HomieValue::parse is a function of the external homie5 crate (raw
payload string and property description to parsed value); the engine is
verified for every possible parser, so it enters as an oracle, with
None standing for the Err case. -/
abbrev ValueParser := String → HomiePropertyDescription → Option HomieValue

/-- HomieDiscovery::update_prop_value at time now: resolve the device,
resolve the property description through the device description, parse
the raw payload; any failure drops the message with no action and no
store mutation.  On success a retained property goes through
store_value (action DevicePropertyValueChanged exactly on a change), a
non-retained property always yields DevicePropertyValueTriggered and
leaves the store untouched. -/
def updatePropValue (parse : ValueParser) (now : Timestamp) (property : PropertyRef)
    (value : String) (devices : DeviceStore) : Option DiscoveryAction × DeviceStore :=
  match devices.getDevice property.deviceRef with
  | none => (none, devices)
  | some device =>
    match device.description.bind (fun desc =>
        desc.withProperty property (fun propDesc => (parse value propDesc, propDesc.retained))) with
    | none => (none, devices)
    | some (parsed, retained) =>
      match parsed with
      | none => (none, devices)
      | some v =>
        if retained then
          match device.propValues.storeValue now property.propPointer v with
          | (.Equal _ _, st) =>
            (none, devices.setDevice property.deviceRef { device with propValues := st })
          | (.Changed old new _ _, st) =>
            (some (.DevicePropertyValueChanged property old new),
             devices.setDevice property.deviceRef { device with propValues := st })
        else
          (some (.DevicePropertyValueTriggered property v), devices)

-- ---------------------------------------------------------------------
-- Concrete fixtures used by scenario conjuncts and witnesses
-- ---------------------------------------------------------------------

/-- A trivial parser oracle used in witnesses: every payload parses to
its HomieValue::String form. -/
def parseW : ValueParser := fun raw _ => some (.String raw)

/-- Retained string property description used by the C3 witness. -/
def propDescW : HomiePropertyDescription :=
  { name := none, datatype := .String, format := .Empty, settable := false,
    retained := true, unit := none }

/-- One-node one-property device description used by the C3 witness. -/
def descW : HomieDeviceDescription :=
  { version := 1, name := none, homie := "5.0", parent := none, root := none,
    children := [], extensions := [],
    nodes := [("node-1", { name := none, type := none, properties := [("prop-1", propDescW)] })] }

/-- Ready device holding descW. -/
def deviceW : Device :=
  { ident := ⟨.Default, "device-1"⟩, state := .Ready, description := some descW,
    propValues := PropertyValueStore.new, alerts := AlertStore.new }

/-- Store holding exactly deviceW. -/
def storeW : DeviceStore := { domains := [(.Default, [("device-1", deviceW)])] }

def propRefW : PropertyRef := PropertyRef.mk4 .Default "device-1" "node-1" "prop-1"

/-- Query of the section-8 query-matching scenario: domain homie
(Default), device id device-1, node type test-type, property datatype in
the set containing integer and float. -/
def scenarioQuery : QueryDefinition :=
  { domain := some (.Value .Default),
    device := some ({ DeviceQuery.default with id := some (.Value "device-1") }),
    node := some ({ NodeQuery.default with rtype := some (.Value "test-type") }),
    property := some ({ PropertyQuery.default with
      datatype := some (.Operator ⟨.Equal, some (.Multiple [.Integer, .Float])⟩) }) }

/-- Device description of the section-8 query-matching scenario:
node-1 of type test-type with an Integer and a Float property, node-2
with an Integer property. -/
def scenarioDesc : HomieDeviceDescription :=
  { version := 1, name := none, homie := "5.0", parent := none, root := none,
    children := [], extensions := [],
    nodes :=
      [("node-1",
        { name := some "Testnode", type := some "test-type",
          properties :=
            [("prop-1",
              { name := none, datatype := .Integer,
                format := .IntegerRange (some 1) (some 20) none, settable := false,
                retained := true, unit := none }),
             ("prop-2",
              { name := none, datatype := .Float, format := .Empty, settable := false,
                retained := true, unit := none })] }),
       ("node-2",
        { name := some "Testnode no 2", type := none,
          properties :=
            [("state",
              { name := none, datatype := .Integer,
                format := .IntegerRange (some 1) (some 20) none, settable := false,
                retained := true, unit := none })] })] }

/-- Query of the section-8 materialized-query scenario: property name
equal to temperature. -/
def matQueryW : QueryDefinition :=
  { domain := none, device := none, node := none,
    property := some ({ PropertyQuery.default with name := some (.Value "temperature") }) }

/-- Device description of the materialized-query scenario: one node
with properties named temperature and humidity. -/
def matDescW : HomieDeviceDescription :=
  { version := 1, name := none, homie := "5.0", parent := none, root := none,
    children := [], extensions := [],
    nodes :=
      [("node",
        { name := none, type := none,
          properties :=
            [("temperature",
              { name := some "temperature", datatype := .Float, format := .Empty,
                settable := false, retained := true, unit := none }),
             ("humidity",
              { name := some "humidity", datatype := .Float, format := .Empty,
                settable := false, retained := true, unit := none })] })] }

def tempRefW : PropertyRef := PropertyRef.mk4 .Default "device-1" "node" "temperature"

def humRefW : PropertyRef := PropertyRef.mk4 .Default "device-1" "node" "humidity"

/-- Regex oracle that never matches; the scenario queries contain no
pattern conditions, so any oracle gives the same results. -/
def rmNone : RegexOracle := fun _ _ => false

-- ---------------------------------------------------------------------
-- Derived orphan relation and parent graph of a device store
-- ---------------------------------------------------------------------

/-- Derived orphan predicate over a store, mirroring the branch
structure of is_orphaned where it terminates: a device is orphaned when
it declares a parent that is absent, or whose description omits it from
the children list; when the parent is present, lists the device and
itself declares a parent, orphan status propagates from the parent.  A
device whose parent is present but undescribed is not orphaned (the
source falls through to false there). -/
inductive Orphaned (s : DeviceStore) : Device → Prop where
  | parentMissing : ∀ (d : Device) (desc : HomieDeviceDescription) (parent : HomieID),
      d.description = some desc → desc.parent = some parent →
      s.getDevice (d.ident.cloneWithId parent) = none → Orphaned s d
  | notListed : ∀ (d : Device) (desc : HomieDeviceDescription) (parent : HomieID)
      (p : Device) (pd : HomieDeviceDescription),
      d.description = some desc → desc.parent = some parent →
      s.getDevice (d.ident.cloneWithId parent) = some p → p.description = some pd →
      d.deviceId ∉ pd.children → Orphaned s d
  | viaParent : ∀ (d : Device) (desc : HomieDeviceDescription) (parent : HomieID)
      (p : Device) (pd : HomieDeviceDescription),
      d.description = some desc → desc.parent = some parent →
      s.getDevice (d.ident.cloneWithId parent) = some p → p.description = some pd →
      d.deviceId ∈ pd.children → pd.parent.isSome = true → Orphaned s p → Orphaned s d

/-- One declared-parent reference step: d declares a parent id and the
store resolves it (in the domain of d) to p. -/
def parentStep (s : DeviceStore) (d p : Device) : Prop :=
  ∃ desc parent, d.description = some desc ∧ desc.parent = some parent ∧
    s.getDevice (d.ident.cloneWithId parent) = some p

/-- The recursion step actually taken by is_orphaned: the parent is
present, described, lists the device and declares a parent itself. -/
def orphanStep (s : DeviceStore) (d p : Device) : Prop :=
  ∃ desc parent pd, d.description = some desc ∧ desc.parent = some parent ∧
    s.getDevice (d.ident.cloneWithId parent) = some p ∧ p.description = some pd ∧
    d.deviceId ∈ pd.children ∧ pd.parent.isSome = true

/-- The declared-parent references of the store form an acyclic graph:
no device reaches itself through one or more parent-reference steps. -/
def AcyclicParents (s : DeviceStore) : Prop :=
  ∀ d, ¬ Relation.TransGen (parentStep s) d d

/-- Every device held anywhere in the store. -/
def DeviceStore.allDevices (s : DeviceStore) : List Device :=
  s.domains.flatMap (fun dm => dm.2.map Prod.snd)

-- ---------------------------------------------------------------------
-- Orphan fixtures
-- ---------------------------------------------------------------------

/-- Description declaring parent-1 as parent, used by the C2
counterexample. -/
def cxChildDesc : HomieDeviceDescription :=
  { version := 1, name := none, homie := "5.0", parent := some "parent-1", root := none,
    children := [], extensions := [], nodes := [] }

def cxChild : Device :=
  { ident := ⟨.Default, "child-1"⟩, state := .Ready, description := some cxChildDesc,
    propValues := PropertyValueStore.new, alerts := AlertStore.new }

/-- Parent that is present in the store but holds no description. -/
def cxParent : Device :=
  { ident := ⟨.Default, "parent-1"⟩, state := .Ready, description := none,
    propValues := PropertyValueStore.new, alerts := AlertStore.new }

def cxStore : DeviceStore :=
  { domains := [(.Default, [("child-1", cxChild), ("parent-1", cxParent)])] }

/-- Device declaring an absent parent, used by witnesses. -/
def soloDesc : HomieDeviceDescription :=
  { version := 1, name := none, homie := "5.0", parent := some "ghost", root := none,
    children := [], extensions := [], nodes := [] }

def soloDev : Device :=
  { ident := ⟨.Default, "solo"⟩, state := .Ready, description := some soloDesc,
    propValues := PropertyValueStore.new, alerts := AlertStore.new }

def soloStore : DeviceStore := { domains := [(.Default, [("solo", soloDev)])] }

/-- Two-device parent cycle: a declares parent b, b declares parent a,
each lists the other as a child, so is_orphaned recurses forever. -/
def cycDescA : HomieDeviceDescription :=
  { version := 1, name := none, homie := "5.0", parent := some "b", root := none,
    children := ["b"], extensions := [], nodes := [] }

def cycDescB : HomieDeviceDescription :=
  { version := 1, name := none, homie := "5.0", parent := some "a", root := none,
    children := ["a"], extensions := [], nodes := [] }

def cycDevA : Device :=
  { ident := ⟨.Default, "a"⟩, state := .Ready, description := some cycDescA,
    propValues := PropertyValueStore.new, alerts := AlertStore.new }

def cycDevB : Device :=
  { ident := ⟨.Default, "b"⟩, state := .Ready, description := some cycDescB,
    propValues := PropertyValueStore.new, alerts := AlertStore.new }

def cycStore : DeviceStore :=
  { domains := [(.Default, [("a", cycDevA), ("b", cycDevB)])] }

-- =====================================================================
-- Theorems
-- =====================================================================

theorem alistGet_insert_self {K V : Type} [DecidableEq K] (l : List (K × V)) (k : K) (v : V) :
    alistGet (alistInsert l k v) k = some v := by
  induction l with
  | nil => simp [alistInsert, alistGet]
  | cons hd tl ih =>
    obtain ⟨k', v'⟩ := hd
    by_cases h : k' = k <;> simp [alistInsert, alistGet, h, ih]

theorem alistGet_insert_ne {K V : Type} [DecidableEq K] (l : List (K × V)) (k k₂ : K) (v : V)
    (hne : k ≠ k₂) : alistGet (alistInsert l k v) k₂ = alistGet l k₂ := by
  induction l with
  | nil => simp [alistInsert, alistGet, hne]
  | cons hd tl ih =>
    obtain ⟨k', v'⟩ := hd
    by_cases h : k' = k
    · subst h; simp [alistInsert, alistGet, hne]
    · simp [alistInsert, alistGet, h, ih]

theorem alistGet_remove_self {K V : Type} [DecidableEq K] (l : List (K × V)) (k : K) :
    alistGet (alistRemove l k) k = none := by
  induction l with
  | nil => simp [alistRemove, alistGet]
  | cons hd tl ih =>
    obtain ⟨k', v'⟩ := hd
    by_cases h : k' = k <;> simp [alistRemove, alistGet, h, ih]

theorem alistGet_remove_ne {K V : Type} [DecidableEq K] (l : List (K × V)) (k k₂ : K)
    (hne : k ≠ k₂) : alistGet (alistRemove l k) k₂ = alistGet l k₂ := by
  induction l with
  | nil => simp [alistRemove, alistGet]
  | cons hd tl ih =>
    obtain ⟨k', v'⟩ := hd
    by_cases h : k' = k
    · subst h; simp [alistRemove, alistGet, hne, ih]
    · simp [alistRemove, alistGet, h, ih]

/-- Claim C7: AlertStore.store_alert removes the id on empty text
(Cleared when an entry existed, NoChange otherwise), inserts on a fresh
id (New), leaves the map unchanged on identical text (Equal) and
replaces on different text (Changed with old and new), and the alert
lifecycle sequence New, Equal, Changed, Cleared, NoChange plays out on
the concrete x / y / empty sequence. -/
theorem storeAlert_spec :
    (∀ (s : AlertStore) (id : HomieID) (text : String),
      (text.isEmpty = true →
        (∀ old, alistGet s.entries id = some old →
          (s.storeAlert id text).1 = .Cleared id ∧
          alistGet (s.storeAlert id text).2.entries id = none) ∧
        (alistGet s.entries id = none → s.storeAlert id text = (.NoChange, s))) ∧
      (text.isEmpty = false →
        (alistGet s.entries id = none →
          (s.storeAlert id text).1 = .New id text ∧
          alistGet (s.storeAlert id text).2.entries id = some text) ∧
        (∀ old, alistGet s.entries id = some old →
          (old = text → s.storeAlert id text = (.Equal, s)) ∧
          (old ≠ text →
            (s.storeAlert id text).1 = .Changed id old text ∧
            alistGet (s.storeAlert id text).2.entries id = some text))))
    ∧ (let r1 := AlertStore.new.storeAlert "alert-1" "x"
       let r2 := r1.2.storeAlert "alert-1" "x"
       let r3 := r2.2.storeAlert "alert-1" "y"
       let r4 := r3.2.storeAlert "alert-1" ""
       let r5 := r4.2.storeAlert "alert-1" ""
       r1.1 = .New "alert-1" "x" ∧ r2.1 = .Equal ∧ r3.1 = .Changed "alert-1" "x" "y" ∧
         r4.1 = .Cleared "alert-1" ∧ r5.1 = .NoChange) := by
  constructor
  · intro s id text
    constructor
    · intro hempty
      constructor
      · intro old hold
        simp [AlertStore.storeAlert, hempty, hold, alistGet_remove_self]
      · intro hnone
        simp [AlertStore.storeAlert, hempty, hnone]
    · intro hnonempty
      constructor
      · intro hnone
        simp [AlertStore.storeAlert, hnonempty, hnone, alistGet_insert_self]
      · intro old hold
        constructor
        · intro heq
          subst heq
          simp [AlertStore.storeAlert, hnonempty, hold]
        · intro hne
          simp [AlertStore.storeAlert, hnonempty, hold, hne, alistGet_insert_self]
  · decide

/-- Claim C7 witness: the general part applied to a one-entry store. -/
theorem storeAlert_spec_witness :
    (({ entries := [("alert-1", "x")] } : AlertStore).storeAlert "alert-1" "y").1 =
      .Changed "alert-1" "x" "y" := by
  have h := (storeAlert_spec.1 ({ entries := [("alert-1", "x")] } : AlertStore)
      "alert-1" "y").2 (by decide)
  exact ((h.2 "x" (by decide)).2 (by decide)).1

/-- After store_value the entry holds the written value. -/
theorem storeValue_stores (s : PropertyValueStore) (now : Timestamp)
    (p : PropertyPointer) (v : HomieValue) :
    ((s.storeValue now p v).2.getValueEntry p).map PropertyValueEntry.value =
      some (some v) := by
  unfold PropertyValueStore.storeValue PropertyValueStore.getValueEntry
  cases hget : alistGet s.entries p with
  | none => simp [alistGet_insert_self]
  | some entry =>
    by_cases hv : entry.value = some v
    · simp [hv, alistGet_insert_self]
    · simp [hv, alistGet_insert_self]

/-- store_value reports Equal and keeps the stored value when the entry
already holds that value. -/
theorem storeValue_equal_of_stored (s : PropertyValueStore) (now : Timestamp)
    (p : PropertyPointer) (v : HomieValue) (e : PropertyValueEntry)
    (he : s.getValueEntry p = some e) (hv : e.value = some v) :
    (∃ lr lc, (s.storeValue now p v).1 = .Equal lr lc) ∧
      ((s.storeValue now p v).2.getValueEntry p).map PropertyValueEntry.value =
        some (some v) := by
  unfold PropertyValueStore.getValueEntry at he
  unfold PropertyValueStore.storeValue PropertyValueStore.getValueEntry
  rw [he]
  simp [hv]
  simp [alistGet_insert_self, hv]

/-- Claim C8: a store_value round-trip leaves the written value readable
through get_value_entry; an immediately repeated identical store_value
reports Equal and keeps the stored value; the first store_value on an
absent key reports Changed with old None. -/
theorem storeValue_spec (s : PropertyValueStore) (now now2 : Timestamp)
    (p : PropertyPointer) (v : HomieValue) :
    (((s.storeValue now p v).2.getValueEntry p).map PropertyValueEntry.value =
      some (some v)) ∧
    ((∃ lr lc, ((s.storeValue now p v).2.storeValue now2 p v).1 = .Equal lr lc) ∧
      ((((s.storeValue now p v).2.storeValue now2 p v).2.getValueEntry p).map
        PropertyValueEntry.value = some (some v))) ∧
    (s.getValueEntry p = none →
      ∃ lr lc, (s.storeValue now p v).1 = .Changed none v lr lc) := by
  have h1 := storeValue_stores s now p v
  obtain ⟨e1, he1, hv1⟩ : ∃ e, (s.storeValue now p v).2.getValueEntry p = some e ∧
      e.value = some v := by
    cases hg : (s.storeValue now p v).2.getValueEntry p with
    | none => rw [hg] at h1; simp at h1
    | some e => rw [hg] at h1; simp at h1; exact ⟨e, rfl, h1⟩
  refine ⟨h1, ?_, ?_⟩
  · exact storeValue_equal_of_stored _ now2 p v e1 he1 hv1
  · intro hnone
    unfold PropertyValueStore.getValueEntry at hnone
    unfold PropertyValueStore.storeValue
    rw [hnone]
    exact ⟨some now, some now, rfl⟩

/-- Claim C8 witness: first write on an empty store reports Changed with
old None. -/
theorem storeValue_spec_witness :
    ∃ lr lc,
      (PropertyValueStore.new.storeValue 0 ⟨"node-1", "prop-1"⟩ (.Integer 1)).1 =
        .Changed none (.Integer 1) lr lc :=
  (storeValue_spec PropertyValueStore.new 0 0 ⟨"node-1", "prop-1"⟩ (.Integer 1)).2.2 (by decide)

/-- A successful device lookup splits into a domain-map lookup and a
device-map lookup. -/
theorem getDevice_split (s : DeviceStore) (ref : DeviceRef) (dev : Device)
    (h : s.getDevice ref = some dev) :
    ∃ dm, alistGet s.domains ref.homieDomain = some dm ∧
      alistGet dm ref.deviceId = some dev := by
  unfold DeviceStore.getDevice at h
  cases hd : alistGet s.domains ref.homieDomain with
  | none => rw [hd] at h; simp at h
  | some dm => rw [hd] at h; exact ⟨dm, rfl, h⟩

/-- setDevice makes the written device readable under its reference. -/
theorem getDevice_setDevice_self (s : DeviceStore) (ref : DeviceRef) (d : Device)
    (dm : DeviceMap) (h : alistGet s.domains ref.homieDomain = some dm) :
    (s.setDevice ref d).getDevice ref = some d := by
  unfold DeviceStore.setDevice DeviceStore.getDevice
  rw [h]
  simp [alistGet_insert_self]

/-- Claim C4: DeviceStore.add creates an absent device with the given
status, no description and empty value and alert stores (Added), leaves
a known device with equal status untouched (NoChange), and updates the
status of a known device with differing status (StateUpdate from old to
new). -/
theorem deviceStore_add_spec (s : DeviceStore) (ref : DeviceRef)
    (status : HomieDeviceStatus) :
    (s.getDevice ref = none →
      (s.add ref status).1 = .Added ref ∧
      (s.add ref status).2.getDevice ref =
        some { ident := ref, state := status, description := none,
               propValues := PropertyValueStore.new, alerts := AlertStore.new }) ∧
    (∀ dev, s.getDevice ref = some dev →
      (dev.state = status → s.add ref status = (.NoChange, s)) ∧
      (dev.state ≠ status →
        (s.add ref status).1 = .StateUpdate ref dev.state status ∧
        (s.add ref status).2.getDevice ref = some ({ dev with state := status }))) := by
  constructor
  · intro habsent
    unfold DeviceStore.add
    rw [habsent]
    cases hd : alistGet s.domains ref.homieDomain with
    | some dm =>
      refine ⟨rfl, ?_⟩
      unfold DeviceStore.getDevice
      simp [alistGet_insert_self]
    | none =>
      refine ⟨rfl, ?_⟩
      unfold DeviceStore.getDevice
      simp [alistGet_insert_self, alistGet]
  · intro dev hdev
    obtain ⟨dm, hdm, _⟩ := getDevice_split s ref dev hdev
    constructor
    · intro heq
      unfold DeviceStore.add
      rw [hdev]
      simp [heq]
    · intro hne
      unfold DeviceStore.add
      rw [hdev]
      dsimp only
      rw [if_pos hne]
      exact ⟨rfl, getDevice_setDevice_self s ref _ dm hdm⟩

/-- Claim C4 witness: adding to the empty store creates the device. -/
theorem deviceStore_add_spec_witness :
    (DeviceStore.new.add ⟨.Default, "device-1"⟩ .Init).1 = .Added ⟨.Default, "device-1"⟩ :=
  ((deviceStore_add_spec DeviceStore.new ⟨.Default, "device-1"⟩ .Init).1 (by decide)).1

/-- Claim C1: DeviceStore.store_description is the version-gated
update: NotFound on an unknown device with an unchanged store, install
with Update from None when no description was held, NoChange with an
unchanged store on an equal version, wholesale replacement with Update
from Some(old) to the new description on a differing version. -/
theorem storeDescription_spec (s : DeviceStore) (ref : DeviceRef)
    (desc : HomieDeviceDescription) :
    (s.getDevice ref = none → s.storeDescription ref desc = (.NotFound, s)) ∧
    (∀ dev, s.getDevice ref = some dev →
      (dev.description = none →
        (s.storeDescription ref desc).1 = .Update ref none desc ∧
        (s.storeDescription ref desc).2.getDevice ref =
          some ({ dev with description := some desc })) ∧
      (∀ old, dev.description = some old →
        (old.version = desc.version → s.storeDescription ref desc = (.NoChange, s)) ∧
        (old.version ≠ desc.version →
          (s.storeDescription ref desc).1 = .Update ref (some old) desc ∧
          (s.storeDescription ref desc).2.getDevice ref =
            some ({ dev with description := some desc })))) := by
  constructor
  · intro habsent
    unfold DeviceStore.storeDescription
    rw [habsent]
  · intro dev hdev
    obtain ⟨dm, hdm, _⟩ := getDevice_split s ref dev hdev
    constructor
    · intro hnone
      unfold DeviceStore.storeDescription
      rw [hdev]
      dsimp only
      rw [hnone]
      exact ⟨rfl, getDevice_setDevice_self s ref _ dm hdm⟩
    · intro old hold
      constructor
      · intro heq
        unfold DeviceStore.storeDescription
        rw [hdev]
        dsimp only
        rw [hold]
        simp [heq]
      · intro hne
        unfold DeviceStore.storeDescription
        rw [hdev]
        dsimp only
        rw [hold]
        dsimp only
        rw [if_pos hne]
        exact ⟨rfl, getDevice_setDevice_self s ref _ dm hdm⟩

/-- Claim C1 witness: a description for a never-discovered device is
rejected with NotFound and the store is unchanged. -/
theorem storeDescription_spec_witness :
    DeviceStore.new.storeDescription ⟨.Default, "device-1"⟩
      { version := 1, name := none, homie := "5.0", parent := none, root := none,
        children := [], extensions := [], nodes := [] } =
      (.NotFound, DeviceStore.new) :=
  (storeDescription_spec DeviceStore.new ⟨.Default, "device-1"⟩
    { version := 1, name := none, homie := "5.0", parent := none, root := none,
      children := [], extensions := [], nodes := [] }).1 (by decide)

/-- with_property is the identity resolution post-composed with f. -/
theorem withProperty_as_map {α : Type} (desc : HomieDeviceDescription) (prop : PropertyRef)
    (f : HomiePropertyDescription → α) :
    desc.withProperty prop f = (desc.withProperty prop (fun pd => pd)).map f := by
  unfold HomieDeviceDescription.withProperty
  cases h : alistGet desc.nodes prop.nodeId with
  | none => rfl
  | some nodeDesc =>
    cases h2 : alistGet nodeDesc.properties prop.propId <;> simp

/-- store_value splits by whether the prior stored value already equals
the written one: Equal if so, otherwise Changed carrying the prior
value. -/
theorem storeValue_pair_cases (s : PropertyValueStore) (now : Timestamp)
    (p : PropertyPointer) (v : HomieValue) :
    ((s.getValueEntry p).bind PropertyValueEntry.value = some v →
      ∃ lr lc, s.storeValue now p v = (.Equal lr lc, (s.storeValue now p v).2)) ∧
    ((s.getValueEntry p).bind PropertyValueEntry.value ≠ some v →
      ∃ lr lc, s.storeValue now p v =
        (.Changed ((s.getValueEntry p).bind PropertyValueEntry.value) v lr lc,
         (s.storeValue now p v).2)) := by
  unfold PropertyValueStore.storeValue PropertyValueStore.getValueEntry
  cases hget : alistGet s.entries p with
  | none =>
    refine ⟨fun h => by simp at h, fun _ => ⟨some now, some now, by simp⟩⟩
  | some entry =>
    by_cases hv : entry.value = some v
    · refine ⟨fun _ => ⟨some now, entry.valueLastChanged, by simp [hv]⟩, fun h => ?_⟩
      simp [hv] at h
    · refine ⟨fun h => ?_, fun _ => ⟨some now, some now, by simp [hv]⟩⟩
      simp [hv] at h

/-- Claim C3: the property-value path of the discovery engine drops the
message with no action and no store mutation when the device is
unknown, undescribed, the property is not described, or the raw payload
fails to parse; on success a retained property is persisted through the
Property Value Store with DevicePropertyValueChanged emitted exactly
when the stored value changed, and a non-retained property always
yields DevicePropertyValueTriggered with no store mutation.  Stated for
every parser oracle standing in for homie5 HomieValue::parse. -/
theorem updatePropValue_spec (parse : ValueParser) (now : Timestamp)
    (prop : PropertyRef) (value : String) (s : DeviceStore) :
    (s.getDevice prop.deviceRef = none →
      updatePropValue parse now prop value s = (none, s)) ∧
    (∀ dev, s.getDevice prop.deviceRef = some dev →
      (dev.description = none → updatePropValue parse now prop value s = (none, s)) ∧
      (∀ desc, dev.description = some desc →
        (desc.withProperty prop (fun pd => pd) = none →
          updatePropValue parse now prop value s = (none, s)) ∧
        (∀ pd, desc.withProperty prop (fun x => x) = some pd →
          (parse value pd = none →
            updatePropValue parse now prop value s = (none, s)) ∧
          (∀ v, parse value pd = some v →
            (pd.retained = false →
              updatePropValue parse now prop value s =
                (some (.DevicePropertyValueTriggered prop v), s)) ∧
            (pd.retained = true →
              ((updatePropValue parse now prop value s).2.getValueEntry prop).map
                  PropertyValueEntry.value = some (some v) ∧
              (let prior :=
                (dev.propValues.getValueEntry prop.propPointer).bind PropertyValueEntry.value
               if prior = some v then
                 (updatePropValue parse now prop value s).1 = none
               else
                 (updatePropValue parse now prop value s).1 =
                   some (.DevicePropertyValueChanged prop prior v))))))) := by
  constructor
  · intro habsent
    unfold updatePropValue
    rw [habsent]
  · intro dev hdev
    obtain ⟨dm, hdm, _⟩ := getDevice_split s prop.deviceRef dev hdev
    constructor
    · intro hnodesc
      simp [updatePropValue, hdev, hnodesc]
    · intro desc hdesc
      constructor
      · intro hnoprop
        have hw : desc.withProperty prop
            (fun propDesc => (parse value propDesc, propDesc.retained)) = none := by
          rw [withProperty_as_map desc prop
            (fun propDesc => (parse value propDesc, propDesc.retained)), hnoprop]
          rfl
        simp [updatePropValue, hdev, hdesc, hw]
      · intro pd hpd
        have hw : desc.withProperty prop
            (fun propDesc => (parse value propDesc, propDesc.retained)) =
              some (parse value pd, pd.retained) := by
          rw [withProperty_as_map desc prop
            (fun propDesc => (parse value propDesc, propDesc.retained)), hpd]
          rfl
        constructor
        · intro hparse
          simp [updatePropValue, hdev, hdesc, hw, hparse]
        · intro v hv
          constructor
          · intro hnr
            simp [updatePropValue, hdev, hdesc, hw, hv, hnr]
          · intro hr
            have hsplit := storeValue_pair_cases dev.propValues now prop.propPointer v
            have hstored := storeValue_stores dev.propValues now prop.propPointer v
            have hmain : updatePropValue parse now prop value s =
                (match (dev.propValues.storeValue now prop.propPointer v).1 with
                 | .Equal _ _ => none
                 | .Changed old new _ _ =>
                   some (.DevicePropertyValueChanged prop old new),
                 s.setDevice prop.deviceRef
                   { dev with
                     propValues := (dev.propValues.storeValue now prop.propPointer v).2 }) := by
              cases hsv : dev.propValues.storeValue now prop.propPointer v with
              | mk u st =>
                cases u <;> simp [updatePropValue, hdev, hdesc, hw, hv, hr, hsv]
            constructor
            · rw [hmain]
              dsimp only
              unfold DeviceStore.getValueEntry
              rw [getDevice_setDevice_self s prop.deviceRef _ dm hdm]
              simpa using hstored
            · dsimp only
              by_cases hprior :
                  (dev.propValues.getValueEntry prop.propPointer).bind
                    PropertyValueEntry.value = some v
              · rw [if_pos hprior, hmain]
                obtain ⟨lr, lc, heq⟩ := hsplit.1 hprior
                rw [heq]
              · rw [if_neg hprior, hmain]
                obtain ⟨lr, lc, heq⟩ := hsplit.2 hprior
                rw [heq]

/-- Claim C3 witness: a retained property value message on a described
device ends up stored, and an unknown device drops its message with the
store unchanged. -/
theorem updatePropValue_spec_witness :
    (((updatePropValue parseW 0 propRefW "on" storeW).2.getValueEntry propRefW).map
        PropertyValueEntry.value = some (some (.String "on"))) ∧
      updatePropValue parseW 0 propRefW "on" DeviceStore.new = (none, DeviceStore.new) := by
  constructor
  · exact ((((((updatePropValue_spec parseW 0 propRefW "on" storeW).2 deviceW
      (by decide)).2 descW (by decide)).2 propDescW (by decide)).2
        (.String "on") (by decide)).2 (by decide)).1
  · exact (updatePropValue_spec parseW 0 propRefW "on" DeviceStore.new).1 (by decide)

/-- Claim C5: QueryDefinition.match_query returns exactly the property
references whose domain level (with the wildcard All matching every
domain), device level, node level and property level conditions all
hold, built from the passed domain and device id; and on the section-8
scenario it returns exactly the two properties under node-1 and none
under node-2. -/
theorem queryDefinition_matchQuery_spec :
    (∀ (rm : RegexOracle) (q : QueryDefinition) (domain : HomieDomain) (id : HomieID)
        (desc : HomieDeviceDescription) (p : PropertyRef),
      p ∈ q.matchQuery rm domain id desc ↔
        (q.domainOk rm domain = true ∧
          condHolds q.device (fun dq => dq.matchQuery rm id desc) = true ∧
          ∃ nodeId nodeDesc propId propDesc,
            (nodeId, nodeDesc) ∈ desc.nodes ∧
            (propId, propDesc) ∈ nodeDesc.properties ∧
            condHolds q.node (fun nq => nq.matchQuery rm nodeId nodeDesc) = true ∧
            condHolds q.property (fun pq => pq.matchQuery rm propId propDesc) = true ∧
            p = PropertyRef.mk4 domain id nodeId propId)) ∧
    scenarioQuery.matchQuery (fun _ _ => false) .Default "device-1" scenarioDesc =
      [PropertyRef.mk4 .Default "device-1" "node-1" "prop-1",
       PropertyRef.mk4 .Default "device-1" "node-1" "prop-2"] := by
  constructor
  · intro rm q domain id desc p
    unfold QueryDefinition.matchQuery
    cases hd : q.domainOk rm domain with
    | false => simp [hd]
    | true =>
      cases hq : condHolds q.device (fun dq => dq.matchQuery rm id desc) with
      | false => simp [hd, hq]
      | true =>
        simp only [hd, hq, Bool.and_self, if_true]
        constructor
        · intro hp
          rw [List.mem_flatMap] at hp
          obtain ⟨⟨nid, nd⟩, hmem, hp⟩ := hp
          refine ⟨trivial, trivial, ?_⟩
          cases hn : condHolds q.node (fun nq => nq.matchQuery rm nid nd) with
          | false => simp [hn] at hp
          | true =>
            simp only [hn, if_true] at hp
            rw [List.mem_map] at hp
            obtain ⟨⟨pid, pdesc⟩, hfil, rfl⟩ := hp
            rw [List.mem_filter] at hfil
            exact ⟨nid, nd, pid, pdesc, hmem, hfil.1, hn, hfil.2, rfl⟩
        · rintro ⟨-, -, nid, nd, pid, pdesc, hmem, hpmem, hn, hpok, rfl⟩
          rw [List.mem_flatMap]
          refine ⟨(nid, nd), hmem, ?_⟩
          simp only [hn, if_true]
          rw [List.mem_map]
          refine ⟨(pid, pdesc), ?_, rfl⟩
          rw [List.mem_filter]
          exact ⟨hpmem, hpok⟩
  · decide

/-- Every reference produced by match_query carries the passed domain
and device id. -/
theorem mem_matchQuery_fields (rm : RegexOracle) (q : QueryDefinition)
    (domain : HomieDomain) (id : HomieID) (desc : HomieDeviceDescription)
    (p : PropertyRef) (hp : p ∈ q.matchQuery rm domain id desc) :
    p.device.homieDomain = domain ∧ p.deviceId = id := by
  unfold QueryDefinition.matchQuery at hp
  by_cases hc : (q.domainOk rm domain
      && condHolds q.device (fun dq => dq.matchQuery rm id desc)) = true
  · rw [if_pos hc] at hp
    rw [List.mem_flatMap] at hp
    obtain ⟨⟨nid, nd⟩, _, hp⟩ := hp
    by_cases hn : condHolds q.node (fun nq => nq.matchQuery rm nid nd) = true
    · simp only [hn, if_true] at hp
      rw [List.mem_map] at hp
      obtain ⟨⟨pid, pdesc⟩, _, rfl⟩ := hp
      exact ⟨rfl, rfl⟩
    · simp only [hn, if_false, Bool.not_eq_true] at hp
      simp at hp
  · rw [if_neg hc] at hp
    simp at hp

/-- Claim C6: add_materialized is idempotent; add_materialized followed
by remove_materialized with the same arguments leaves no member for the
device id; on the section-8 scenario only the temperature reference is
a member after adding, and neither reference after removing. -/
theorem materializedQuery_add_remove_spec :
    (∀ (rm : RegexOracle) (m : MaterializedQuery) (domain : HomieDomain) (id : HomieID)
        (desc : HomieDeviceDescription),
      (m.addMaterialized rm domain id desc).addMaterialized rm domain id desc =
        m.addMaterialized rm domain id desc) ∧
    (∀ (rm : RegexOracle) (m : MaterializedQuery) (domain : HomieDomain) (id : HomieID)
        (desc : HomieDeviceDescription) (p : PropertyRef),
      p.deviceId = id →
      ((m.addMaterialized rm domain id desc).removeMaterialized rm domain id desc).matchQuery
        p = false) ∧
    (((MaterializedQuery.new matQueryW).addMaterialized rmNone .Default "device-1"
        matDescW).matchQuery tempRefW = true ∧
      ((MaterializedQuery.new matQueryW).addMaterialized rmNone .Default "device-1"
        matDescW).matchQuery humRefW = false) ∧
    ((((MaterializedQuery.new matQueryW).addMaterialized rmNone .Default "device-1"
        matDescW).removeMaterialized rmNone .Default "device-1" matDescW).matchQuery
          tempRefW = false ∧
      (((MaterializedQuery.new matQueryW).addMaterialized rmNone .Default "device-1"
        matDescW).removeMaterialized rmNone .Default "device-1" matDescW).matchQuery
          humRefW = false) := by
  refine ⟨?_, ?_, by decide, by decide⟩
  · intro rm m domain id desc
    unfold MaterializedQuery.addMaterialized
    dsimp only
    congr 1
    ext p
    simp only [Finset.mem_union, Finset.mem_filter]
    tauto
  · intro rm m domain id desc p hp
    unfold MaterializedQuery.removeMaterialized MaterializedQuery.addMaterialized
      MaterializedQuery.matchQuery
    dsimp only
    rw [decide_eq_false_iff_not]
    intro hmem
    rw [Finset.mem_sdiff] at hmem
    obtain ⟨hin, hout⟩ := hmem
    rw [Finset.mem_union] at hin
    rcases hin with hin | hin
    · rw [Finset.mem_filter] at hin
      exact hin.2 hp
    · exact hout hin

/-- Claim C6 witness: the clearing property applied to the scenario
query and device. -/
theorem materializedQuery_add_remove_spec_witness :
    (((MaterializedQuery.new matQueryW).addMaterialized rmNone .Default "device-1"
        matDescW).removeMaterialized rmNone .Default "device-1" matDescW).matchQuery
      tempRefW = false :=
  materializedQuery_add_remove_spec.2.1 rmNone (MaterializedQuery.new matQueryW) .Default
    "device-1" matDescW tempRefW (by decide)

/-- Claim C10: add_materialized purges by device id alone, ignoring the
domain: after add_materialized(A, X, description), no reference with
device id X whose domain differs from A is a member. -/
theorem addMaterialized_purges_across_domains (rm : RegexOracle) (m : MaterializedQuery)
    (domA : HomieDomain) (id : HomieID) (desc : HomieDeviceDescription) (p : PropertyRef)
    (hid : p.deviceId = id) (hdom : p.device.homieDomain ≠ domA) :
    (m.addMaterialized rm domA id desc).matchQuery p = false := by
  unfold MaterializedQuery.addMaterialized MaterializedQuery.matchQuery
  dsimp only
  rw [decide_eq_false_iff_not]
  intro hmem
  rw [Finset.mem_union] at hmem
  rcases hmem with hmem | hmem
  · rw [Finset.mem_filter] at hmem
    exact hmem.2 hid
  · rw [List.mem_toFinset] at hmem
    exact hdom (mem_matchQuery_fields rm m.query domA id desc p hmem).1

/-- Claim C10 witness: a domain-B reference of the same device id is
purged by an add_materialized call for the Default domain. -/
theorem addMaterialized_purges_across_domains_witness :
    (({ query := matQueryW,
        matRefs := {PropertyRef.mk4 (.Custom "b") "device-1" "node" "temperature"} } :
          MaterializedQuery).addMaterialized rmNone .Default "device-1"
      matDescW).matchQuery
        (PropertyRef.mk4 (.Custom "b") "device-1" "node" "temperature") = false :=
  addMaterialized_purges_across_domains rmNone
    ({ query := matQueryW,
       matRefs := {PropertyRef.mk4 (.Custom "b") "device-1" "node" "temperature"} })
    .Default "device-1" matDescW
    (PropertyRef.mk4 (.Custom "b") "device-1" "node" "temperature") (by decide) (by decide)

/-- Claim C2 counterexample: in cxStore the child declares parent
parent-1, the parent is present but holds no description, so it does
not list the child among its children; the claim then requires the
child to be orphaned, yet is_orphaned returns false (the source falls
through when the parent has no description). -/
theorem isOrphaned_claim_counterexample :
    cxChild.description = some cxChildDesc ∧
    cxChildDesc.parent = some "parent-1" ∧
    cxStore.getDevice (cxChild.ident.cloneWithId "parent-1") = some cxParent ∧
    cxParent.description = none ∧
    cxStore.isOrphanedFuel 1 cxChild = some false := by
  decide

/-- Claim C2 (amended): whenever the recursion of is_orphaned returns a
verdict, the verdict is true exactly when the derived Orphaned
predicate holds: the device declares a parent that is absent from the
store, or whose description does not list the device among its
children, or — when the parent is present, described, lists the device
and itself declares a parent — the parent is itself orphaned; a device
with no description, no declared parent, or whose present parent has no
description, is not orphaned. -/
theorem isOrphanedFuel_iff_orphaned (s : DeviceStore) :
    ∀ (n : Nat) (d : Device) (b : Bool),
      s.isOrphanedFuel n d = some b → (b = true ↔ Orphaned s d) := by
  intro n
  induction n with
  | zero =>
    intro d b h
    exact absurd h (by simp [DeviceStore.isOrphanedFuel])
  | succ n ih =>
    intro d b h
    unfold DeviceStore.isOrphanedFuel at h
    cases hdesc : d.description with
    | none =>
      rw [hdesc] at h
      injection h with h
      subst h
      refine ⟨fun hh => by simp at hh, fun horph => ?_⟩
      cases horph <;> simp_all
    | some desc =>
      rw [hdesc] at h
      dsimp only at h
      cases hpar : desc.parent with
      | none =>
        rw [hpar] at h
        injection h with h
        subst h
        refine ⟨fun hh => by simp at hh, fun horph => ?_⟩
        cases horph <;> simp_all
      | some parent =>
        rw [hpar] at h
        dsimp only at h
        cases hget : s.getDevice (d.ident.cloneWithId parent) with
        | none =>
          rw [hget] at h
          injection h with h
          subst h
          exact ⟨fun _ => Orphaned.parentMissing d desc parent hdesc hpar hget,
                 fun _ => rfl⟩
        | some p =>
          rw [hget] at h
          dsimp only at h
          cases hpd : p.description with
          | none =>
            rw [hpd] at h
            injection h with h
            subst h
            refine ⟨fun hh => by simp at hh, fun horph => ?_⟩
            cases horph <;> simp_all
          | some pd =>
            rw [hpd] at h
            dsimp only at h
            by_cases hmem : d.deviceId ∈ pd.children
            · rw [if_pos hmem] at h
              cases hpp : pd.parent with
              | none =>
                rw [hpp] at h
                simp only [Option.isSome_none, Bool.false_eq_true, if_false] at h
                injection h with h
                subst h
                refine ⟨fun hh => by simp at hh, fun horph => ?_⟩
                cases horph <;> simp_all
              | some pp =>
                rw [hpp] at h
                simp only [Option.isSome_some, if_true] at h
                have hiff := ih p b h
                constructor
                · intro hb
                  exact Orphaned.viaParent d desc parent p pd hdesc hpar hget hpd hmem
                    (by rw [hpp]; rfl) (hiff.1 hb)
                · intro horph
                  apply hiff.2
                  cases horph with
                  | parentMissing d0 desc0 parent0 hdesc0 hpar0 hget0 =>
                    rw [hdesc] at hdesc0
                    injection hdesc0 with he
                    subst he
                    rw [hpar] at hpar0
                    injection hpar0 with he
                    subst he
                    rw [hget] at hget0
                    simp at hget0
                  | notListed d0 desc0 parent0 p0 pd0 hdesc0 hpar0 hget0 hpd0 hnl =>
                    rw [hdesc] at hdesc0
                    injection hdesc0 with he
                    subst he
                    rw [hpar] at hpar0
                    injection hpar0 with he
                    subst he
                    rw [hget] at hget0
                    injection hget0 with he
                    subst he
                    rw [hpd] at hpd0
                    injection hpd0 with he
                    subst he
                    exact absurd hmem hnl
                  | viaParent d0 desc0 parent0 p0 pd0 hdesc0 hpar0 hget0 hpd0 hm0 hpp0 hrec =>
                    rw [hdesc] at hdesc0
                    injection hdesc0 with he
                    subst he
                    rw [hpar] at hpar0
                    injection hpar0 with he
                    subst he
                    rw [hget] at hget0
                    injection hget0 with he
                    subst he
                    exact hrec
            · rw [if_neg hmem] at h
              injection h with h
              subst h
              exact ⟨fun _ => Orphaned.notListed d desc parent p pd hdesc hpar hget hpd hmem,
                     fun _ => rfl⟩

/-- Claim C2 witness: the device declaring an absent parent is derived
orphaned from the true verdict of the recursion. -/
theorem isOrphanedFuel_iff_orphaned_witness : Orphaned soloStore soloDev :=
  (isOrphanedFuel_iff_orphaned soloStore 1 soloDev true (by decide)).1 rfl

theorem alistGet_mem {K V : Type} [DecidableEq K] (l : List (K × V)) (k : K) (v : V)
    (h : alistGet l k = some v) : (k, v) ∈ l := by
  induction l with
  | nil => simp [alistGet] at h
  | cons hd tl ih =>
    obtain ⟨k', v'⟩ := hd
    by_cases hk : k' = k
    · subst hk
      simp [alistGet] at h
      subst h
      exact List.mem_cons_self _ _
    · simp [alistGet, hk] at h
      exact List.mem_cons_of_mem _ (ih h)

/-- A device found through get_device is one of the store's devices. -/
theorem getDevice_mem_allDevices (s : DeviceStore) (ref : DeviceRef) (dev : Device)
    (h : s.getDevice ref = some dev) : dev ∈ s.allDevices := by
  obtain ⟨dm, hdm, hdev⟩ := getDevice_split s ref dev h
  unfold DeviceStore.allDevices
  rw [List.mem_flatMap]
  exact ⟨(ref.homieDomain, dm), alistGet_mem _ _ _ hdm,
    List.mem_map.mpr ⟨(ref.deviceId, dev), alistGet_mem _ _ _ hdev, rfl⟩⟩

/-- The recursion step of is_orphaned follows a declared-parent
reference. -/
theorem orphanStep_le_parentStep (s : DeviceStore) :
    ∀ a b : Device, orphanStep s a b → parentStep s a b := by
  rintro a b ⟨desc, parent, pd, hdesc, hpar, hget, -, -, -⟩
  exact ⟨desc, parent, hdesc, hpar, hget⟩

/-- On a store whose parent references are acyclic, the fuelled
recursion returns once the fuel covers the devices not yet visited on
the recursion path. -/
theorem isOrphanedFuel_total_aux (s : DeviceStore) (hacyc : AcyclicParents s) :
    ∀ (k : Nat) (d : Device) (visited : List Device),
      d ∈ s.allDevices → visited.Nodup → visited ⊆ s.allDevices → d ∉ visited →
      (∀ v ∈ visited, Relation.TransGen (orphanStep s) v d) →
      k = s.allDevices.length - visited.length →
      (s.isOrphanedFuel k d).isSome = true := by
  intro k
  induction k with
  | zero =>
    intro d visited hd hnodup hsub hnotin hvis hk
    exfalso
    have hsp : List.Subperm (d :: visited) s.allDevices :=
      List.subperm_of_subset (List.nodup_cons.mpr ⟨hnotin, hnodup⟩) (by
        intro x hx
        rcases List.mem_cons.mp hx with rfl | hx
        · exact hd
        · exact hsub hx)
    have hlen := hsp.length_le
    simp only [List.length_cons] at hlen
    omega
  | succ k ih =>
    intro d visited hd hnodup hsub hnotin hvis hk
    have hsp : List.Subperm (d :: visited) s.allDevices :=
      List.subperm_of_subset (List.nodup_cons.mpr ⟨hnotin, hnodup⟩) (by
        intro x hx
        rcases List.mem_cons.mp hx with rfl | hx
        · exact hd
        · exact hsub hx)
    have hlen := hsp.length_le
    simp only [List.length_cons] at hlen
    unfold DeviceStore.isOrphanedFuel
    cases hdesc : d.description with
    | none => simp
    | some desc =>
      dsimp only
      cases hpar : desc.parent with
      | none => simp
      | some parent =>
        dsimp only
        cases hget : s.getDevice (d.ident.cloneWithId parent) with
        | none => simp
        | some p =>
          dsimp only
          cases hpd : p.description with
          | none => simp
          | some pd =>
            dsimp only
            by_cases hmem : d.deviceId ∈ pd.children
            · rw [if_pos hmem]
              cases hpp : pd.parent with
              | none => simp
              | some pp =>
                simp only [Option.isSome_some, if_true]
                have hstep : orphanStep s d p :=
                  ⟨desc, parent, pd, hdesc, hpar, hget, hpd, hmem, by rw [hpp]; rfl⟩
                have hpmem : p ∈ s.allDevices := getDevice_mem_allDevices s _ p hget
                have hpnotin : p ∉ d :: visited := by
                  intro hin
                  rcases List.mem_cons.mp hin with rfl | hin
                  · exact hacyc p (Relation.TransGen.single
                      (orphanStep_le_parentStep s _ _ hstep))
                  · have hcyc := Relation.TransGen.trans (hvis p hin)
                      (Relation.TransGen.single hstep)
                    exact hacyc p (Relation.TransGen.mono
                      (orphanStep_le_parentStep s) hcyc)
                apply ih p (d :: visited) hpmem (List.nodup_cons.mpr ⟨hnotin, hnodup⟩)
                · intro x hx
                  rcases List.mem_cons.mp hx with rfl | hx
                  · exact hd
                  · exact hsub hx
                · exact hpnotin
                · intro v hv
                  rcases List.mem_cons.mp hv with rfl | hv
                  · exact Relation.TransGen.single hstep
                  · exact Relation.TransGen.trans (hvis v hv)
                      (Relation.TransGen.single hstep)
                · simp only [List.length_cons]
                  omega
            · rw [if_neg hmem]
              simp

/-- The two-device parent cycle never lets the recursion return, at any
fuel. -/
theorem cycStore_fuel_none :
    ∀ n, cycStore.isOrphanedFuel n cycDevA = none ∧
      cycStore.isOrphanedFuel n cycDevB = none := by
  intro n
  induction n with
  | zero => exact ⟨rfl, rfl⟩
  | succ n ih =>
    refine ⟨?_, ?_⟩
    · have hstep : cycStore.isOrphanedFuel (n + 1) cycDevA =
          cycStore.isOrphanedFuel n cycDevB := rfl
      rw [hstep]
      exact ih.2
    · have hstep : cycStore.isOrphanedFuel (n + 1) cycDevB =
          cycStore.isOrphanedFuel n cycDevA := rfl
      rw [hstep]
      exact ih.1

/-- Claim C9: on every store whose declared-parent references are
acyclic, is_orphaned terminates on each stored device (fuel equal to
the device count suffices); on the concrete two-device parent cycle the
recursion returns at no fuel, having no cycle guard. -/
theorem isOrphaned_termination :
    (∀ (s : DeviceStore) (d : Device), AcyclicParents s → d ∈ s.allDevices →
      (s.isOrphanedFuel s.allDevices.length d).isSome = true) ∧
    (∀ n, cycStore.isOrphanedFuel n cycDevA = none) := by
  constructor
  · intro s d hacyc hd
    exact isOrphanedFuel_total_aux s hacyc s.allDevices.length d [] hd (by simp)
      (by intro x hx; cases hx) (by simp) (by intro v hv; cases hv) (by simp)
  · intro n
    exact (cycStore_fuel_none n).1

/-- Claim C9 witness: the singleton store declaring an absent parent is
acyclic, and the recursion returns on its device. -/
theorem isOrphaned_termination_witness :
    (soloStore.isOrphanedFuel soloStore.allDevices.length soloDev).isSome = true := by
  have htarget : ∀ a b : Device, parentStep soloStore a b → b = soloDev := by
    rintro a b ⟨desc, parent, hdesc, hpar, hget⟩
    have hmem := getDevice_mem_allDevices soloStore _ b hget
    simpa [DeviceStore.allDevices, soloStore] using hmem
  have hacyc : AcyclicParents soloStore := by
    intro d hcyc
    obtain ⟨c, -, hc2⟩ := Relation.TransGen.tail'_iff.mp hcyc
    have hd : d = soloDev := htarget c d hc2
    subst hd
    obtain ⟨e, he, -⟩ := Relation.TransGen.head'_iff.mp hcyc
    rcases he with ⟨desc, parent, hdesc, hpar, hget⟩
    rw [show soloDev.description = some soloDesc from rfl] at hdesc
    injection hdesc with he1
    subst he1
    rw [show soloDesc.parent = some "ghost" from rfl] at hpar
    injection hpar with he2
    subst he2
    have hnone : soloStore.getDevice (soloDev.ident.cloneWithId "ghost") = none := by
      decide
    rw [hnone] at hget
    cases hget
  have hmem : soloDev ∈ soloStore.allDevices := by decide
  exact isOrphaned_termination.1 soloStore soloDev hacyc hmem

end HcHomie5
